import Mathlib

/-!
Verification of the Publit APIUtilityGoSDK core against its specification.

This file shallowly embeds the Go sources of the repository:
 - package client (client/client.go): credential handling, authentication
   headers, raw calls and token harvesting;
 - package common (common/common.go): the normalized API error shape;
 - package endpoint (endpoint/endpoint.go): endpoint-template resolution;
 - package APIClient: the generic verb operations, URL compilation and
   error normalization.

Modelling conventions:
 - Go strings are Lean `String`, Go `int` is Lean `Int`.
 - An `http.Header` is an association list `List (String × String)`;
   `Header.Get` returns the first value for the key or `""` and
   `Header.Set` replaces every binding of the key.  The sources only ever
   use the fixed keys "token", "Content-Type" and "Authorization", so MIME
   key canonicalization (a bijection on those keys) is omitted.
 - A transport (`Doer.Do` / `APICaller.CallRaw`) is external: its outcome
   is passed in as a `DoResult`, the pair `(*http.Response, error)` with
   `none` standing for a nil pointer.
 - Dereferencing a nil response is a Go run-time panic; functions that can
   reach such a dereference return a result record with a `panicked` flag.
 - Logging is modelled as the list of emitted `(level, message)` pairs.
-/

set_option autoImplicit false

/-- Severity levels of the Logger interface (client/client.go). -/
inductive LogLevel where
  | info
  | debug
deriving DecidableEq, Repr

/-- One emitted log line: its level and its message. -/
abbrev LogEntry := LogLevel × String

/-- Association-list model of http.Header: Get returns the first value bound
to the key, or the empty string when the key is absent (Go zero value). -/
def hGet (k : String) (h : List (String × String)) : String :=
  match h.find? (fun p => p.1 == k) with
  | some p => p.2
  | none => ""

/-- Header.Set: replaces every binding of the key with the single value. -/
def hSet (k v : String) (h : List (String × String)) : List (String × String) :=
  (k, v) :: h.filter (fun p => p.1 != k)

/-- Model of the parts of *http.Request that the sources read or write:
method, host, URL path and raw query (used for logging), the header map,
and the Basic-auth pair installed by Request.SetBasicAuth.  SetBasicAuth
base64-encodes the pair into the Authorization header; since that encoding
is injective the pair itself is kept. -/
structure Request where
  Method : String
  Host : String
  Path : String
  RawQuery : String
  Header : List (String × String)
  basicAuth : Option (String × String)
deriving DecidableEq, Repr

/-- Model of the parts of *http.Response that the sources read:
Status (text), StatusCode and the header map. -/
structure Response where
  Status : String
  StatusCode : Int
  Header : List (String × String)
deriving DecidableEq, Repr

/-- Outcome of one transport invocation, the Go pair
`(*http.Response, error)`.  `resp = none` models a nil response pointer;
`err = none` models a nil error.  (The test doubles of the repository return
a non-nil response together with a non-nil error; a real http.Client
returns a nil response on network failure.) -/
structure DoResult where
  resp : Option Response
  err : Option String
deriving DecidableEq, Repr

/-! ## package client (src/client/client.go) -/

/-- Client (client/client.go): the credential fields and the token.  The
HTTPClient, Logger and mutex fields are modelled behaviourally: the
transport outcome is an input, logging is an output, and the mutex is
analysed through the access traces further below. -/
structure Client where
  User : String
  Password : String
  AccountID : Int
  Token : String
deriving DecidableEq, Repr

/-- setAuth (client/client.go lines 137-150): builds the Basic-auth
username as "user;" or "user;accountID", chooses the password (the stored
password, or empty when a token is held, in which case the token request
header is also set), and installs the pair via SetBasicAuth. -/
def setAuth (c : Client) (r : Request) : Request :=
  let username := c.User ++ ";"
  let username := if c.AccountID ≠ 0 then c.User ++ ";" ++ toString c.AccountID else username
  let password := c.Password
  if c.Token ≠ "" then
    { r with Header := hSet "token" c.Token r.Header, basicAuth := some (username, "") }
  else
    { r with basicAuth := some (username, password) }

/-- Message of the error built in setTokenFromResponse. -/
def noTokenMsg : String := "No token received in header. Could not set token from response."

/-- setTokenFromResponse (client/client.go lines 121-135), as a function of
the current token and the response: returns the new token value, the error
(if any) and the log lines it emits.  When the response carries no token
header the token is left unchanged and an error is returned. -/
def setTokenFromResponse (curToken : String) (r : Response) :
    String × Option String × List LogEntry :=
  let token := hGet "token" r.Header
  if token = "" then
    (curToken, some noTokenMsg, [(LogLevel.debug, noTokenMsg)])
  else
    (token, none, [])

/-- Info log line emitted at the top of CallRaw. -/
def callingMsg (r : Request) : String :=
  "Calling URL: " ++ r.Method ++ " " ++ r.Host ++ " " ++ r.Path ++ " " ++ r.RawQuery

/-- Info log line emitted by CallRaw after the transport call; computing it
dereferences the response (resp.Status, resp.StatusCode). -/
def respondedMsg (r : Request) (resp : Response) : String :=
  "Request URL: [" ++ r.Method ++ " " ++ r.Host ++ " " ++ r.Path ++
    "] responded with status: " ++ resp.Status ++ " " ++ toString resp.StatusCode

/-- Result of CallRaw: the token after the call, the log lines emitted, a
panic flag, and the response/error pair returned to the caller. -/
structure CallRawResult where
  Token : String
  log : List LogEntry
  panicked : Bool
  resp : Option Response
  err : Option String
deriving DecidableEq, Repr

/-- CallRaw (client/client.go lines 76-97): logs the outgoing request,
performs the transport call, logs the response status, and, when no token
is held, harvests a token from the response.  The status log line
dereferences the response pointer without a nil check (line 84), so a
transport outcome with a nil response is a run-time panic. -/
def CallRaw (c : Client) (r : Request) (d : DoResult) : CallRawResult :=
  let log := [(LogLevel.info, callingMsg r)]
  let log := log ++ (match d.err with
    | some e => [(LogLevel.debug, e)]
    | none => [])
  match d.resp with
  | none =>
      { Token := c.Token, log := log, panicked := true, resp := none, err := d.err }
  | some resp =>
      let log := log ++ [(LogLevel.info, respondedMsg r resp)]
      let t := c.Token
      if t = "" then
        let harvest := setTokenFromResponse c.Token resp
        { Token := harvest.1, log := log ++ harvest.2.2, panicked := false,
          resp := some resp, err := d.err }
      else
        { Token := c.Token, log := log, panicked := false, resp := some resp, err := d.err }

/-- Call (client/client.go lines 70-73): setAuth then CallRaw. -/
def Call (c : Client) (r : Request) (d : DoResult) : CallRawResult :=
  CallRaw c (setAuth c r) d

/-- Result of Client.SetNewAPIToken: token after the call, log, panic flag
and the returned error. -/
structure SetTokenResult where
  Token : String
  log : List LogEntry
  panicked : Bool
  err : Option String
deriving DecidableEq, Repr

/-- Client.SetNewAPIToken (client/client.go lines 101-119): applies setAuth
(once directly and once more inside Call), performs the call, then sets the
token from the response, returning an error when the transport call failed
or the response carried no token header. -/
def Client.SetNewAPIToken (c : Client) (r : Request) (d : DoResult) : SetTokenResult :=
  let r := setAuth c r
  let res := Call c r d
  if res.panicked then
    { Token := res.Token, log := res.log, panicked := true, err := none }
  else
    match res.err with
    | some e =>
        { Token := res.Token, log := res.log ++ [(LogLevel.debug, e)],
          panicked := false, err := some e }
    | none =>
        match res.resp with
        | some resp =>
            let after := setTokenFromResponse res.Token resp
            match after.2.1 with
            | some e =>
                { Token := after.1, log := res.log ++ after.2.2 ++ [(LogLevel.debug, e)],
                  panicked := false, err := some e }
            | none =>
                { Token := after.1, log := res.log ++ after.2.2, panicked := false, err := none }
        | none =>
            { Token := res.Token, log := res.log, panicked := true, err := none }

/-- GetAuthToken (client/client.go lines 153-155): plain read of Token. -/
def GetAuthToken (c : Client) : String := c.Token

/-- UnsetAuthToken (client/client.go lines 159-163): clears Token. -/
def UnsetAuthToken (c : Client) : Client := { c with Token := "" }

/-! ## Mutex discipline on Client.Token

Each operation of package client touches the Token field and the mutex M in
a fixed source order.  The traces below record, per operation, the sequence
of mutex acquisitions/releases and Token reads/writes exactly as they
appear in client/client.go; a read or write is "locked" when it occurs
strictly between a lock and its matching unlock. -/

/-- One atomic event on the mutex or Token field of the Client. -/
inductive TokenEvent where
  | lock
  | unlock
  | readTok
  | writeTok
deriving DecidableEq, Repr

/-- Holds when every Token read/write in the trace happens while the mutex
hold-depth is positive; n is the current hold-depth. -/
def accessesLocked : List TokenEvent → Nat → Bool
  | [], _ => true
  | TokenEvent.lock :: rest, n => accessesLocked rest (n + 1)
  | TokenEvent.unlock :: rest, n => accessesLocked rest (n - 1)
  | TokenEvent.readTok :: rest, n => decide (0 < n) && accessesLocked rest n
  | TokenEvent.writeTok :: rest, n => decide (0 < n) && accessesLocked rest n

/-- GetAuthToken (lines 153-155): returns c.Token with no locking. -/
def getAuthTokenTrace : List TokenEvent := [TokenEvent.readTok]

/-- UnsetAuthToken (lines 159-163): M.Lock; c.Token = ""; M.Unlock. -/
def unsetAuthTokenTrace : List TokenEvent :=
  [TokenEvent.lock, TokenEvent.writeTok, TokenEvent.unlock]

/-- setAuth (lines 137-150): reads c.Token in the condition and, when it is
non-empty, reads it again as the header value — with no locking. -/
def setAuthTrace (tokenNonEmpty : Bool) : List TokenEvent :=
  if tokenNonEmpty then [TokenEvent.readTok, TokenEvent.readTok] else [TokenEvent.readTok]

/-- setTokenFromResponse (lines 121-135): when the header carries a token,
M.Lock; c.Token = token; M.Unlock; otherwise Token is not touched. -/
def setTokenFromResponseTrace (headerEmpty : Bool) : List TokenEvent :=
  if headerEmpty then []
  else [TokenEvent.lock, TokenEvent.writeTok, TokenEvent.unlock]

/-- CallRaw (lines 86-94): M.Lock; t := c.Token; M.Unlock; then, when t was
empty, the harvest via setTokenFromResponse. -/
def callRawTokenTrace (tokenEmpty headerEmpty : Bool) : List TokenEvent :=
  [TokenEvent.lock, TokenEvent.readTok, TokenEvent.unlock] ++
    (if tokenEmpty then setTokenFromResponseTrace headerEmpty else [])

/-! ## package common (src/common/common.go) -/

/-- APIError (common/common.go): one sub-error of an API error response.
The Go field Type is rendered here with a trailing apostrophe because Type
is a Lean keyword. -/
structure APIError where
  Info : String
  Type' : String
deriving DecidableEq, Repr

/-- APIErrorResponse (common/common.go lines 89-94): the general Publit API
error response shape. -/
structure APIErrorResponse where
  Code : Int
  Type' : String
  Errors : List APIError
  CombinedInfo : String
deriving DecidableEq, Repr

/-- APIErrorResponse.HasInformation (common/common.go lines 110-115): true
iff Code is non-zero and Type and CombinedInfo are non-empty. -/
def APIErrorResponse.HasInformation (e : APIErrorResponse) : Bool :=
  if e.Code ≠ 0 ∧ e.Type' ≠ "" ∧ e.CombinedInfo ≠ "" then true else false

/-- APIErrorResponse.GetAsError (common/common.go lines 103-107): the error
message built from Code, Type and CombinedInfo. -/
def APIErrorResponse.GetAsError (e : APIErrorResponse) : String :=
  "Code: \"" ++ toString e.Code ++ "\", Type: \"" ++ e.Type' ++
    "\", Combined info: \"" ++ e.CombinedInfo ++ "\""

/-! ## package endpoint (src/endpoint/endpoint.go) -/

/-- Qualifier value, a member of the Go interface slice passed to the
endpoint templates; the fmt %v verb formats a string as itself and an int in
decimal. -/
inductive GoVal where
  | str (s : String)
  | int (i : Int)
deriving DecidableEq, Repr

/-- Default %v formatting of a qualifier value. -/
def GoVal.formatV : GoVal → String
  | GoVal.str s => s
  | GoVal.int i => toString i

/-- Number of non-overlapping occurrences of the two-character pattern
"%v", as counted by strings.Count(e, "%v") scanning left to right. -/
def countVs : List Char → Nat
  | '%' :: 'v' :: rest => countVs rest + 1
  | _ :: rest => countVs rest
  | [] => 0

/-- Positional %v substitution performed by fmt.Sprintf(e, qualifiers...):
each "%v" consumes the next argument; a "%v" with no argument left renders
as the fmt missing-argument marker (unreachable under the count guard of
GetEndpoint). -/
def substVs : List Char → List String → List Char
  | '%' :: 'v' :: rest, a :: args => a.data ++ substVs rest args
  | '%' :: 'v' :: rest, [] => "%!v(MISSING)".data ++ substVs rest []
  | ch :: rest, args => ch :: substVs rest args
  | [], _ => []

/-- String form of positional %v substitution. -/
def sprintfV (s : String) (args : List String) : String :=
  String.mk (substVs s.data args)

/-- Resource (endpoint/endpoint.go lines 12-19): endpoint key, qualifiers
and the key-to-template map (an association list; a missing key yields the
Go zero value ""). -/
structure Resource where
  Endpoint : Int
  Qualifiers : List GoVal
  Endpoints : List (Int × String)
deriving DecidableEq, Repr

/-- Template selected by a Resource: map lookup with the Go zero-value
default for a missing key. -/
def Resource.template (r : Resource) : String :=
  (r.Endpoints.lookup r.Endpoint).getD ""

/-- Error message of the qualifier-count mismatch in GetEndpoint. -/
def mismatchMsg (got expected : Nat) : String :=
  "Amount of qualifiers did not match expected. Got " ++ toString got ++
    ", expected " ++ toString expected

/-- Resource.GetEndpoint (endpoint/endpoint.go lines 28-43): looks up the
template, counts its %v placeholders, errors when the count differs from
the number of qualifiers, and otherwise substitutes the qualifiers
positionally (leaving the template untouched when it has no placeholder). -/
def Resource.GetEndpoint (r : Resource) : Except String String :=
  let e := r.template
  let noOfQualifiers := countVs e.data
  if noOfQualifiers ≠ r.Qualifiers.length then
    Except.error (mismatchMsg r.Qualifiers.length noOfQualifiers)
  else if noOfQualifiers > 0 then
    Except.ok (sprintfV e (r.Qualifiers.map GoVal.formatV))
  else
    Except.ok e

/-! ## package APIClient (src sources of the APIClient package)

The struct and operations below follow the APIClient package source.  The
transport behind the APICaller interface is external, so each operation
takes the outcome of the delegated call as an input and additionally
reports whether the transport was invoked at all. -/

/-- Supported version of the Publit APIs. -/
def API_VERSION : String := "v2.0"

/-- Status check resource name. -/
def RESOURCE_STATUSCHECK : String := "status_check"

/-- Token resource name. -/
def RESOURCE_TOKEN : String := "token"

/-- APIClient: the wrapped APICaller is behavioural (outcomes are inputs);
BaseURL and API are the configured strings.  The responseCodes field is
modelled from the spec: the ordered history of observed HTTP status codes
kept by the Generic API Client (its implementation file is not among the
provided sources; its accessors are exercised by the package tests). -/
structure APIClient where
  BaseURL : String
  API : String
  responseCodes : List Int
deriving DecidableEq, Repr

/-- Error message of compileStatusCheckURL for a missing base URL. -/
def statusCheckURLErrMsg : String :=
  "Could not compile status check URL. Missing APIClient.BaseURL"

/-- compileStatusCheckURL: BaseURL/v2.0/status_check, or an error when the
base URL is empty. -/
def APIClient.compileStatusCheckURL (c : APIClient) : Except String String :=
  if c.BaseURL = "" then
    Except.error statusCheckURLErrMsg
  else
    Except.ok (c.BaseURL ++ "/" ++ API_VERSION ++ "/" ++ RESOURCE_STATUSCHECK)

/-- Error message of compileTokenURL for a missing base URL or API name. -/
def tokenURLErrMsg : String :=
  "Could not compile Token URL, missing one or both of APIClient.BaseURL or APIClient.API"

/-- compileTokenURL: BaseURL/API/v2.0/token, or an error when the base URL
or the API name is empty. -/
def APIClient.compileTokenURL (c : APIClient) : Except String String :=
  if c.BaseURL = "" ∨ c.API = "" then
    Except.error tokenURLErrMsg
  else
    Except.ok (c.BaseURL ++ "/" ++ c.API ++ "/" ++ API_VERSION ++ "/" ++ RESOURCE_TOKEN)

/-- CompileEndpointURL: BaseURL/API/v2.0/endpoint. -/
def APIClient.CompileEndpointURL (c : APIClient) (endpoint : String) : String :=
  c.BaseURL ++ "/" ++ c.API ++ "/" ++ API_VERSION ++ "/" ++ endpoint

/-- Modelled from the spec: the response-code bookkeeping of the Generic
API Client ("an append-only ordered sequence of observed HTTP status codes
(one entry per completed call)"; "Records the observed status code
regardless of outcome (0 if no response was obtained)").  The recording
implementation is not among the provided sources, only callers of its
accessors (the package tests). -/
def APIClient.appendResponseCode (c : APIClient) (resp : Option Response) : APIClient :=
  { c with responseCodes := c.responseCodes ++
      [match resp with
       | some r => r.StatusCode
       | none => 0] }

/-- Modelled from the spec: GetResponseCodes exposes the full ordered
history of observed status codes. -/
def APIClient.GetResponseCodes (c : APIClient) : List Int :=
  c.responseCodes

/-- Result of StatusCheck: the client with its updated history, the
(ok, error) pair returned, whether the transport was invoked, and whether
a nil response was dereferenced. -/
structure StatusCheckResult where
  client : APIClient
  ok : Bool
  err : Option String
  transportCalled : Bool
  panicked : Bool
deriving DecidableEq, Repr

/-- StatusCheck: compiles the status-check URL (failing fast when the base
URL is missing), performs a raw call, and returns true iff the status is
200 OK.  Recording of the observed status code is modelled from the spec
(see APIClient.appendResponseCode). -/
def APIClient.StatusCheck (c : APIClient) (d : DoResult) : StatusCheckResult :=
  match c.compileStatusCheckURL with
  | Except.error e =>
      { client := c.appendResponseCode none, ok := false, err := some e,
        transportCalled := false, panicked := false }
  | Except.ok _ =>
      let c2 := c.appendResponseCode d.resp
      match d.err with
      | some e =>
          { client := c2, ok := false, err := some e, transportCalled := true,
            panicked := false }
      | none =>
          match d.resp with
          | some r =>
              { client := c2, ok := decide (r.StatusCode = 200), err := none,
                transportCalled := true, panicked := false }
          | none =>
              { client := c2, ok := false, err := none, transportCalled := true,
                panicked := true }

/-- Result of APIClient.SetNewAPIToken: the returned error and whether the
delegated Client.SetNewAPIToken (and hence the transport) was invoked. -/
structure TokenOpResult where
  err : Option String
  delegateCalled : Bool
deriving DecidableEq, Repr

/-- APIClient.SetNewAPIToken: compiles the token URL (failing fast when the
base URL or API name is missing) and otherwise delegates to the wrapped
wrapped client through SetNewAPIToken, whose returned error is the input
delegateErr. -/
def APIClient.SetNewAPIToken (c : APIClient) (delegateErr : Option String) : TokenOpResult :=
  match c.compileTokenURL with
  | Except.error e => { err := some e, delegateCalled := false }
  | Except.ok _ => { err := delegateErr, delegateCalled := true }

/-- Fallback tiers of MakeResponseError: "Unauthorized" for status 401,
otherwise the generic "Response not ok" message, both carrying the code. -/
def fallbackError (resp : Response) : String :=
  if resp.StatusCode = 401 then
    "Unauthorized. Code: \"" ++ toString resp.StatusCode ++ "\""
  else
    "Response not ok. No information given. Code: \"" ++ toString resp.StatusCode ++ "\""

/-- MakeResponseError: when the content type is JSON, the body is decoded
into the APIErrorResponse shape (the json library is external, so the
decode outcome is the input `decoded`, none meaning a decode error); an
informative decode yields GetAsError, anything else falls back on the
status-code tiers. -/
def MakeResponseError (resp : Response) (decoded : Option APIErrorResponse) : String :=
  if hGet "Content-Type" resp.Header = "application/json" then
    match decoded with
    | some apiErr =>
        if apiErr.HasInformation then apiErr.GetAsError
        else fallbackError resp
    | none => fallbackError resp
  else
    fallbackError resp

/-- Result of a verb operation (Get, Post, Put, Delete): the returned
error, whether the transport was invoked, and whether a nil response was
dereferenced. -/
structure VerbResult where
  err : Option String
  transportCalled : Bool
  panicked : Bool
deriving DecidableEq, Repr

/-- Get: resolves the endpoint (failing fast on a resolution error),
performs an authenticated call and decodes the body.  The deferred
resp.Body.Close() precedes the error check, so a nil response panics.
`decoded` is the json decode of the error body (for MakeResponseError) and
`modelDecodeErr` the outcome of decoding the 200 body into the target
model of the caller. -/
def APIClient.Get (c : APIClient) (ep : Resource) (d : DoResult)
    (decoded : Option APIErrorResponse) (modelDecodeErr : Option String) : VerbResult :=
  match ep.GetEndpoint with
  | Except.error e => { err := some e, transportCalled := false, panicked := false }
  | Except.ok _ =>
      match d.resp with
      | none => { err := none, transportCalled := true, panicked := true }
      | some resp =>
          match d.err with
          | some e => { err := some e, transportCalled := true, panicked := false }
          | none =>
              if resp.StatusCode ≠ 200 then
                { err := some (MakeResponseError resp decoded), transportCalled := true,
                  panicked := false }
              else
                match modelDecodeErr with
                | some e => { err := some e, transportCalled := true, panicked := false }
                | none => { err := none, transportCalled := true, panicked := false }

/-- postPut: resolves the endpoint (failing fast on a resolution error),
marshals the payload (outcome `marshal`), performs the call and decodes the
result.  Unlike Get, the error is checked before the response body is
touched, so a failed call with a nil response returns the error. -/
def APIClient.postPut (c : APIClient) (method : String) (ep : Resource)
    (marshal : Except String Unit) (d : DoResult)
    (decoded : Option APIErrorResponse) (resultDecodeErr : Option String) : VerbResult :=
  match ep.GetEndpoint with
  | Except.error e => { err := some e, transportCalled := false, panicked := false }
  | Except.ok _ =>
      match marshal with
      | Except.error e => { err := some e, transportCalled := false, panicked := false }
      | Except.ok _ =>
          match d.err with
          | some e => { err := some e, transportCalled := true, panicked := false }
          | none =>
              match d.resp with
              | none => { err := none, transportCalled := true, panicked := true }
              | some resp =>
                  if resp.StatusCode ≠ 200 then
                    { err := some (MakeResponseError resp decoded), transportCalled := true,
                      panicked := false }
                  else
                    match resultDecodeErr with
                    | some e => { err := some e, transportCalled := true, panicked := false }
                    | none => { err := none, transportCalled := true, panicked := false }

/-- Post: postPut with the POST method. -/
def APIClient.Post (c : APIClient) (ep : Resource) (marshal : Except String Unit)
    (d : DoResult) (decoded : Option APIErrorResponse)
    (resultDecodeErr : Option String) : VerbResult :=
  c.postPut "POST" ep marshal d decoded resultDecodeErr

/-- Put: postPut with the PUT method. -/
def APIClient.Put (c : APIClient) (ep : Resource) (marshal : Except String Unit)
    (d : DoResult) (decoded : Option APIErrorResponse)
    (resultDecodeErr : Option String) : VerbResult :=
  c.postPut "PUT" ep marshal d decoded resultDecodeErr

/-- Delete: resolves the endpoint (failing fast on a resolution error),
performs the call and decodes the result; the error is checked before the
deferred body close, but a nil response with a nil error still panics. -/
def APIClient.Delete (c : APIClient) (ep : Resource) (d : DoResult)
    (decoded : Option APIErrorResponse) (resultDecodeErr : Option String) : VerbResult :=
  match ep.GetEndpoint with
  | Except.error e => { err := some e, transportCalled := false, panicked := false }
  | Except.ok _ =>
      match d.err with
      | some e => { err := some e, transportCalled := true, panicked := false }
      | none =>
          match d.resp with
          | none => { err := none, transportCalled := true, panicked := true }
          | some resp =>
              if resp.StatusCode ≠ 200 then
                { err := some (MakeResponseError resp decoded), transportCalled := true,
                  panicked := false }
              else
                match resultDecodeErr with
                | some e => { err := some e, transportCalled := true, panicked := false }
                | none => { err := none, transportCalled := true, panicked := false }

/-! ## Helper lemmas -/

/-- Decidable equality for Except values over strings, so that concrete
GetEndpoint results can be checked by decide. -/
instance : DecidableEq (Except String String) := fun a b =>
  match a, b with
  | Except.ok a1, Except.ok b1 =>
      if h : a1 = b1 then isTrue (congrArg Except.ok h)
      else isFalse (fun hh => h (Except.ok.inj hh))
  | Except.error a1, Except.error b1 =>
      if h : a1 = b1 then isTrue (congrArg Except.error h)
      else isFalse (fun hh => h (Except.error.inj hh))
  | Except.ok a1, Except.error b1 => isFalse (fun hh => Except.noConfusion hh)
  | Except.error a1, Except.ok b1 => isFalse (fun hh => Except.noConfusion hh)

/-- Setting a header key makes Get return the set value. -/
theorem hGet_hSet_self (k v : String) (h : List (String × String)) :
    hGet k (hSet k v h) = v := by
  simp [hGet, hSet]

/-- A template with no %v placeholder is returned unchanged by positional
substitution with no arguments. -/
theorem substVs_nil_of_countVs_zero : ∀ (l : List Char), countVs l = 0 → substVs l [] = l := by
  intro l
  induction l using countVs.induct with
  | case1 rest ih =>
      intro h
      simp [countVs] at h
  | case2 head rest hne ih =>
      intro h
      have h2 : countVs (head :: rest) = countVs rest := by
        rw [countVs.eq_def]
        split
        · rename_i rest1 heq
          injection heq with h1 hr
          exact (hne rest1 h1 hr).elim
        · rename_i h0 r0 heq
          injection heq with h1 hr
          exact congrArg countVs hr.symm
        · rename_i heq
          cases heq
      have h3 : substVs (head :: rest) [] = head :: substVs rest [] := by
        rw [substVs.eq_def]
        split
        · rename_i rest1 a args1 heq heq2
          cases heq2
        · rename_i rest1 heq heq2
          injection heq with h1 hr
          exact (hne rest1 h1 hr).elim
        · rename_i ch0 rest0 heq hx1 hx2
          injection heq with h1 hr
          rw [h1, hr]
        all_goals simp_all
      rw [h2] at h
      rw [h3, ih h]
  | case3 =>
      intro _
      rfl

/-! ## Claims -/

/-- C1: setAuth, invoked by Call before the transport call, builds the
Basic-auth username as "user;" (AccountID zero) or "user;accountID"
(AccountID non-zero); without a token the Basic-auth password is the
configured password, and with a token the request additionally carries a
token header equal to the stored token while the Basic-auth password is
empty, regardless of AccountID or stored password. -/
theorem setAuth_constructs_basic_auth (c : Client) (r : Request) :
    (c.Token = "" →
      (setAuth c r).basicAuth =
        some (if c.AccountID ≠ 0 then c.User ++ ";" ++ toString c.AccountID else c.User ++ ";",
          c.Password))
    ∧ (c.Token ≠ "" →
      hGet "token" (setAuth c r).Header = c.Token
        ∧ (setAuth c r).basicAuth =
          some (if c.AccountID ≠ 0 then c.User ++ ";" ++ toString c.AccountID else c.User ++ ";",
            ""))
    ∧ (∀ d, Call c r d = CallRaw c (setAuth c r) d) := by
  refine ⟨?_, ?_, ?_⟩
  · intro h
    simp [setAuth, h]
  · intro h
    refine ⟨?_, ?_⟩
    · simp [setAuth, h, hGet_hSet_self]
    · simp [setAuth, h]
  · intro d
    rfl

/-- Witness for C1: a concrete client without a token gets the username
"jane;" and the stored password; one with a token gets the token header. -/
theorem setAuth_constructs_basic_auth_witness :
    ((setAuth { User := "jane", Password := "pw", AccountID := 0, Token := "" }
        { Method := "GET", Host := "h", Path := "/x", RawQuery := "", Header := [],
          basicAuth := none }).basicAuth = some ("jane;", "pw"))
    ∧ (hGet "token" ((setAuth { User := "jane", Password := "pw", AccountID := 9, Token := "tok" }
        { Method := "GET", Host := "h", Path := "/x", RawQuery := "", Header := [],
          basicAuth := none }).Header) = "tok") := by
  refine ⟨?_, ?_⟩
  · exact ((setAuth_constructs_basic_auth _ _).1 rfl).trans (by decide)
  · exact ((setAuth_constructs_basic_auth _ _).2.1 (by decide)).1

/-- C2: through CallRaw, when a response is obtained that carries a token
header and no token was held before the call, the stored token becomes the
value of that header; when a non-empty token was already held, the token is
unchanged by the call whatever the response (headers) may be. -/
theorem callRaw_token_harvesting (c : Client) (r : Request) (d : DoResult) :
    (∀ resp, d.resp = some resp → c.Token = "" → hGet "token" resp.Header ≠ "" →
      (CallRaw c r d).Token = hGet "token" resp.Header)
    ∧ (c.Token ≠ "" → (CallRaw c r d).Token = c.Token) := by
  constructor
  · intro resp hresp htok hhdr
    simp [CallRaw, hresp, htok, setTokenFromResponse, hhdr]
  · intro h
    unfold CallRaw
    cases hd : d.resp with
    | none => simp
    | some resp => simp [h]

/-- Witness for C2: a concrete tokenless client obtains the token "T0"
carried by the response, and a client holding "abc" keeps it. -/
theorem callRaw_token_harvesting_witness :
    ((CallRaw { User := "u", Password := "p", AccountID := 0, Token := "" }
        { Method := "GET", Host := "h", Path := "/x", RawQuery := "", Header := [],
          basicAuth := none }
        { resp := some { Status := "200 OK", StatusCode := 200, Header := [("token", "T0")] },
          err := none }).Token = "T0")
    ∧ ((CallRaw { User := "u", Password := "p", AccountID := 0, Token := "abc" }
        { Method := "GET", Host := "h", Path := "/x", RawQuery := "", Header := [],
          basicAuth := none }
        { resp := some { Status := "200 OK", StatusCode := 200, Header := [("token", "T0")] },
          err := none }).Token = "abc") := by
  refine ⟨?_, ?_⟩
  · exact ((callRaw_token_harvesting _ _ _).1 _ rfl rfl (by decide)).trans (by decide)
  · exact (callRaw_token_harvesting _ _ _).2 (by decide)

/-- Whether the decode outcome of a body is an informative APIErrorResponse
(a failed decode is never informative). -/
def informativeDecode : Option APIErrorResponse → Bool
  | some e => e.HasInformation
  | none => false

/-- C3: MakeResponseError applies a three-tier fallback: a JSON content
type with a decodable, informative APIErrorResponse body yields the error
built from Code, Type and CombinedInfo; otherwise status 401 yields the
"Unauthorized" error carrying the code; otherwise the generic "Response not
ok" error carrying the code. -/
theorem makeResponseError_three_tiers (resp : Response) (decoded : Option APIErrorResponse) :
    (∀ e, hGet "Content-Type" resp.Header = "application/json" → decoded = some e →
      e.HasInformation = true → MakeResponseError resp decoded = e.GetAsError)
    ∧ ((hGet "Content-Type" resp.Header = "application/json" → informativeDecode decoded = false) →
      resp.StatusCode = 401 →
      MakeResponseError resp decoded = "Unauthorized. Code: \"" ++ toString resp.StatusCode ++ "\"")
    ∧ ((hGet "Content-Type" resp.Header = "application/json" → informativeDecode decoded = false) →
      resp.StatusCode ≠ 401 →
      MakeResponseError resp decoded =
        "Response not ok. No information given. Code: \"" ++ toString resp.StatusCode ++ "\"") := by
  refine ⟨?_, ?_, ?_⟩
  · intro e hct hdec hinf
    simp [MakeResponseError, hct, hdec, hinf]
  · intro hni h401
    by_cases hct : hGet "Content-Type" resp.Header = "application/json"
    · have hd := hni hct
      cases hdec : decoded with
      | none => simp [MakeResponseError, fallbackError, hct, h401]
      | some e =>
          rw [hdec] at hd
          simp [informativeDecode] at hd
          simp [MakeResponseError, fallbackError, hct, hdec, hd, h401]
    · simp [MakeResponseError, fallbackError, hct, h401]
  · intro hni h401
    by_cases hct : hGet "Content-Type" resp.Header = "application/json"
    · have hd := hni hct
      cases hdec : decoded with
      | none => simp [MakeResponseError, fallbackError, hct, h401]
      | some e =>
          rw [hdec] at hd
          simp [informativeDecode] at hd
          simp [MakeResponseError, fallbackError, hct, hdec, hd, h401]
    · simp [MakeResponseError, fallbackError, hct, h401]

/-- Witness for C3: the three tiers at concrete responses: an informative
JSON body, a bare 401, and a bare 400. -/
theorem makeResponseError_three_tiers_witness :
    (MakeResponseError
        { Status := "400", StatusCode := 400, Header := [("Content-Type", "application/json")] }
        (some { Code := 400, Type' := "BadRequest", Errors := [], CombinedInfo := "x" }) =
      "Code: \"400\", Type: \"BadRequest\", Combined info: \"x\"")
    ∧ (MakeResponseError { Status := "401", StatusCode := 401, Header := [] } none =
      "Unauthorized. Code: \"401\"")
    ∧ (MakeResponseError { Status := "400", StatusCode := 400, Header := [] } none =
      "Response not ok. No information given. Code: \"400\"") := by
  refine ⟨?_, ?_, ?_⟩
  · exact ((makeResponseError_three_tiers _ _).1 _ (by decide) rfl (by decide)).trans (by decide)
  · exact ((makeResponseError_three_tiers
      { Status := "401", StatusCode := 401, Header := [] } none).2.1
      (fun _ => rfl) rfl).trans (by decide)
  · exact ((makeResponseError_three_tiers
      { Status := "400", StatusCode := 400, Header := [] } none).2.2
      (fun _ => rfl) (by decide)).trans (by decide)

/-- C4: StatusCheck returns (true, nil) exactly on a successful transport
call with status 200, (false, nil) for any other status, and (false, err)
when the base URL is empty or the transport call failed; in every case the
status-code history gains exactly one entry, 0 when no response was
obtained (recording modelled from the spec). -/
theorem statusCheck_result_and_history (c : APIClient) (d : DoResult) :
    ((c.StatusCheck d).client.GetResponseCodes =
      c.GetResponseCodes ++
        [if c.BaseURL = "" then 0
         else match d.resp with
           | some r => r.StatusCode
           | none => 0])
    ∧ (c.BaseURL = "" →
        (c.StatusCheck d).ok = false ∧ (c.StatusCheck d).err = some statusCheckURLErrMsg)
    ∧ (c.BaseURL ≠ "" → ∀ e, d.err = some e →
        (c.StatusCheck d).ok = false ∧ (c.StatusCheck d).err = some e)
    ∧ (c.BaseURL ≠ "" → d.err = none → ∀ r, d.resp = some r →
        (c.StatusCheck d).ok = decide (r.StatusCode = 200) ∧ (c.StatusCheck d).err = none) := by
  refine ⟨?_, ?_, ?_, ?_⟩
  · by_cases hb : c.BaseURL = ""
    · simp [APIClient.StatusCheck, APIClient.compileStatusCheckURL, hb,
        APIClient.appendResponseCode, APIClient.GetResponseCodes]
    · cases he : d.err with
      | some e =>
          simp [APIClient.StatusCheck, APIClient.compileStatusCheckURL, hb, he,
            APIClient.appendResponseCode, APIClient.GetResponseCodes]
      | none =>
          cases hr : d.resp with
          | some r =>
              simp [APIClient.StatusCheck, APIClient.compileStatusCheckURL, hb, he, hr,
                APIClient.appendResponseCode, APIClient.GetResponseCodes]
          | none =>
              simp [APIClient.StatusCheck, APIClient.compileStatusCheckURL, hb, he, hr,
                APIClient.appendResponseCode, APIClient.GetResponseCodes]
  · intro hb
    simp [APIClient.StatusCheck, APIClient.compileStatusCheckURL, hb]
  · intro hb e he
    simp [APIClient.StatusCheck, APIClient.compileStatusCheckURL, hb, he]
  · intro hb he r hr
    simp [APIClient.StatusCheck, APIClient.compileStatusCheckURL, hb, he, hr]

/-- Witness for C4: a concrete client with base URL "b" and a 200 response
gets (true, nil) and appends 200 to its empty history. -/
theorem statusCheck_result_and_history_witness :
    ((APIClient.StatusCheck { BaseURL := "b", API := "a", responseCodes := [] }
        { resp := some { Status := "200 OK", StatusCode := 200, Header := [] },
          err := none }).ok = true)
    ∧ ((APIClient.StatusCheck { BaseURL := "b", API := "a", responseCodes := [] }
        { resp := some { Status := "200 OK", StatusCode := 200, Header := [] },
          err := none }).err = none)
    ∧ ((APIClient.StatusCheck { BaseURL := "b", API := "a", responseCodes := [] }
        { resp := some { Status := "200 OK", StatusCode := 200, Header := [] },
          err := none }).client.GetResponseCodes = [200]) := by
  refine ⟨?_, ?_, ?_⟩
  · exact (((statusCheck_result_and_history _ _).2.2.2 (by decide) rfl _ rfl).1).trans (by decide)
  · exact ((statusCheck_result_and_history _ _).2.2.2 (by decide) rfl _ rfl).2
  · exact ((statusCheck_result_and_history _ _).1).trans (by decide)

/-- C5: GetEndpoint counts the %v placeholders of the looked-up template,
errors with the count-mismatch message when the count differs from the
number of qualifiers, and otherwise substitutes the qualifiers
positionally; in particular "resource/%v" with [5] yields "resource/5" and
with [] the count-mismatch error. -/
theorem getEndpoint_qualifier_substitution (r : Resource) :
    (countVs r.template.data ≠ r.Qualifiers.length →
      r.GetEndpoint = Except.error (mismatchMsg r.Qualifiers.length (countVs r.template.data)))
    ∧ (countVs r.template.data = r.Qualifiers.length →
      r.GetEndpoint = Except.ok (sprintfV r.template (r.Qualifiers.map GoVal.formatV)))
    ∧ (Resource.GetEndpoint
        { Endpoint := 1, Qualifiers := [GoVal.int 5], Endpoints := [(1, "resource/%v")] } =
        Except.ok "resource/5")
    ∧ (Resource.GetEndpoint
        { Endpoint := 1, Qualifiers := [], Endpoints := [(1, "resource/%v")] } =
        Except.error "Amount of qualifiers did not match expected. Got 0, expected 1") := by
  refine ⟨?_, ?_, by decide, by decide⟩
  · intro h
    simp [Resource.GetEndpoint, h]
  · intro h
    unfold Resource.GetEndpoint
    rw [if_neg (by omega)]
    by_cases hp : countVs r.template.data > 0
    · rw [if_pos hp]
    · have h0 : countVs r.template.data = 0 := by omega
      have hq : r.Qualifiers = [] := List.length_eq_zero.mp (by omega)
      rw [if_neg hp, hq]
      simp only [List.map_nil, sprintfV, substVs_nil_of_countVs_zero _ h0]

/-- Witness for C5: the mismatch branch applied at a concrete two-slot
template given one qualifier. -/
theorem getEndpoint_qualifier_substitution_witness :
    Resource.GetEndpoint
      { Endpoint := 2, Qualifiers := [GoVal.str "a"], Endpoints := [(2, "test/%v;%v/%v")] } =
      Except.error "Amount of qualifiers did not match expected. Got 1, expected 3" := by
  exact ((getEndpoint_qualifier_substitution _).1 (by decide)).trans (by decide)

/-- C10: with no entry for the endpoint key, GetEndpoint works on the Go
zero-value template "" (zero placeholders): with no qualifiers it succeeds
with the empty path and with any qualifiers it returns the count-mismatch
error; an unknown key is never its own distinct error. -/
theorem getEndpoint_unknown_key (key : Int) (eps : List (Int × String)) (quals : List GoVal)
    (h : eps.lookup key = none) :
    Resource.GetEndpoint { Endpoint := key, Qualifiers := quals, Endpoints := eps } =
      (if quals = [] then Except.ok ""
       else Except.error (mismatchMsg quals.length 0)) := by
  have ht : Resource.template { Endpoint := key, Qualifiers := quals, Endpoints := eps } = "" := by
    simp [Resource.template, h]
  have h0 : countVs ("" : String).data = 0 := rfl
  cases quals with
  | nil => simp [Resource.GetEndpoint, ht, h0]
  | cons q qs => simp [Resource.GetEndpoint, ht, h0]

/-- Witness for C10: a concrete resource whose key 1 is absent from the map
succeeds with "" on no qualifiers and mismatches on one qualifier. -/
theorem getEndpoint_unknown_key_witness :
    (Resource.GetEndpoint
        { Endpoint := 1, Qualifiers := [], Endpoints := [(2, "x/%v")] } = Except.ok "")
    ∧ (Resource.GetEndpoint
        { Endpoint := 1, Qualifiers := [GoVal.int 3], Endpoints := [(2, "x/%v")] } =
        Except.error "Amount of qualifiers did not match expected. Got 1, expected 0") := by
  refine ⟨?_, ?_⟩
  · exact (getEndpoint_unknown_key 1 [(2, "x/%v")] [] (by decide)).trans (by decide)
  · exact (getEndpoint_unknown_key 1 [(2, "x/%v")] [GoVal.int 3] (by decide)).trans (by decide)

/-- C6: evaluation at the failing input: when the transport fails without
producing a response object (the behaviour of http.DefaultClient on a
network error), Client.SetNewAPIToken does not return the error — the nil
response is dereferenced inside CallRaw (client/client.go line 84) and the
call panics. -/
theorem setNewAPIToken_respless_failure_panics :
    (Client.SetNewAPIToken { User := "u", Password := "p", AccountID := 0, Token := "" }
      { Method := "POST", Host := "api.test", Path := "/pub/v2.0/token", RawQuery := "",
        Header := [], basicAuth := none }
      { resp := none, err := some "dial tcp: no such host" }).panicked = true := by decide

/-- C7: evaluation at the failing input: a transport failure with a nil
response makes CallRaw dereference the nil response for its status log line
(client/client.go line 84) and panic instead of returning the error
verbatim. -/
theorem callRaw_respless_failure_panics :
    (CallRaw { User := "u", Password := "p", AccountID := 0, Token := "" }
      { Method := "GET", Host := "api.test", Path := "/v2.0/status_check", RawQuery := "",
        Header := [], basicAuth := none }
      { resp := none, err := some "dial tcp: i/o timeout" }).panicked = true := by decide

/-- C8: every verb operation returns the endpoint-resolution error without
invoking the transport, StatusCheck with an empty base URL errors without
invoking the transport, and APIClient.SetNewAPIToken with an empty base URL
or API name errors without delegating (and hence without any network
call). -/
theorem failfast_before_transport (c : APIClient) (ep : Resource) (d : DoResult)
    (marshal : Except String Unit) (decoded : Option APIErrorResponse)
    (decodeErr : Option String) (delegateErr : Option String) (e : String) :
    (ep.GetEndpoint = Except.error e →
      c.Get ep d decoded decodeErr =
        { err := some e, transportCalled := false, panicked := false }
      ∧ c.Post ep marshal d decoded decodeErr =
        { err := some e, transportCalled := false, panicked := false }
      ∧ c.Put ep marshal d decoded decodeErr =
        { err := some e, transportCalled := false, panicked := false }
      ∧ c.Delete ep d decoded decodeErr =
        { err := some e, transportCalled := false, panicked := false })
    ∧ (c.BaseURL = "" →
      (c.StatusCheck d).err = some statusCheckURLErrMsg
        ∧ (c.StatusCheck d).transportCalled = false)
    ∧ (c.BaseURL = "" ∨ c.API = "" →
      c.SetNewAPIToken delegateErr = { err := some tokenURLErrMsg, delegateCalled := false }) := by
  refine ⟨?_, ?_, ?_⟩
  · intro h
    refine ⟨?_, ?_, ?_, ?_⟩ <;>
      simp [APIClient.Get, APIClient.Post, APIClient.Put, APIClient.Delete, APIClient.postPut, h]
  · intro hb
    refine ⟨?_, ?_⟩ <;> simp [APIClient.StatusCheck, APIClient.compileStatusCheckURL, hb]
  · intro hor
    unfold APIClient.SetNewAPIToken APIClient.compileTokenURL
    rw [if_pos hor]

/-- Witness for C8: a concrete one-slot template with no qualifiers fails
Get before the transport, an empty base URL fails StatusCheck before the
transport, and an empty base URL fails SetNewAPIToken before delegating. -/
theorem failfast_before_transport_witness :
    (APIClient.Get { BaseURL := "b", API := "a", responseCodes := [] }
      { Endpoint := 1, Qualifiers := [], Endpoints := [(1, "a/%v")] }
      { resp := none, err := none } none none =
      { err := some "Amount of qualifiers did not match expected. Got 0, expected 1",
        transportCalled := false, panicked := false })
    ∧ ((APIClient.StatusCheck { BaseURL := "", API := "a", responseCodes := [] }
      { resp := none, err := none }).transportCalled = false)
    ∧ (APIClient.SetNewAPIToken { BaseURL := "", API := "a", responseCodes := [] } none =
      { err := some tokenURLErrMsg, delegateCalled := false }) := by
  refine ⟨?_, ?_, ?_⟩
  · exact ((failfast_before_transport _ _ _ (Except.ok ()) none none none _).1 (by decide)).1
  · exact ((failfast_before_transport { BaseURL := "", API := "a", responseCodes := [] }
      { Endpoint := 1, Qualifiers := [], Endpoints := [] } { resp := none, err := none }
      (Except.ok ()) none none none "").2.1 rfl).2
  · exact (failfast_before_transport _ { Endpoint := 1, Qualifiers := [], Endpoints := [] }
      { resp := none, err := none } (Except.ok ()) none none none "").2.2 (Or.inl rfl)

/-- C9 counterexample: GetAuthToken reads the Token field with the mutex
hold-depth at zero — not every read of Token happens under the mutex. -/
theorem getAuthToken_reads_token_unlocked :
    accessesLocked getAuthTokenTrace 0 = false := by decide

/-- C9 (amended): every write of Token (UnsetAuthToken and the harvest in
setTokenFromResponse) and the pre-harvest read in CallRaw hold the mutex, so
writers are serialized; but the reads in GetAuthToken and setAuth take the
mutex never, so not every read is performed under the lock. -/
theorem token_mutex_discipline :
    (accessesLocked unsetAuthTokenTrace 0 = true)
    ∧ (∀ he, accessesLocked (setTokenFromResponseTrace he) 0 = true)
    ∧ (∀ te he, accessesLocked (callRawTokenTrace te he) 0 = true)
    ∧ (accessesLocked getAuthTokenTrace 0 = false)
    ∧ (∀ tne, accessesLocked (setAuthTrace tne) 0 = false) := by decide
